import Mathlib

/-!
Shallow embedding of `pytablewriter/writer/_table_writer.py`
(`AbstractTableWriter`) together with the parts of its interface
(`_interface.py`) that the verified properties refer to.

Modelling conventions:
* Cells of the value matrix are modelled as their classified value
  descriptors (`ValueDp`): the per-scalar classification performed by the
  external `typepy`/`dataproperty` packages (type tag, display string,
  measured display width, alignment) is outside this repository, so a cell
  enters the model already carrying that data.
* Machine floats only occur in `math.ceil(width * 0.25)`; for natural
  number widths this is exactly `(width + 3) / 4` in integer arithmetic
  (0.25 is a power of two, so the product is exact).
* Python exceptions are modelled with `Except`/`Option` results, and the
  `try/finally` of `_write_table_iter` by applying the `finally` block to
  the state on every exit path.
* The iterative chunk source (`self.value_matrix` being a sequence of
  row-group matrices) is passed to the iterative-write functions as an
  explicit `chunks` list, matching the sequence the Python `for` loop
  captures at loop entry.
-/

namespace PyTableWriter

/-- Type tags of the external `typepy.Typecode` enumeration. -/
inductive Typecode where
  | NONE
  | BOOL
  | DATETIME
  | DICTIONARY
  | INFINITY
  | INTEGER
  | IP_ADDRESS
  | LIST
  | NAN
  | NULL_STRING
  | REAL_NUMBER
  | STRING
deriving DecidableEq

/-- Alignment values of the external `dataproperty.Align` enumeration. -/
inductive Align where
  | AUTO
  | LEFT
  | RIGHT
  | CENTER
deriving DecidableEq

/-- A classified cell (external `dataproperty.DataProperty`): type tag,
alignment, display string (`dp_to_str` result), measured ascii display
width, and the extra padding offset `get_padding_len` adds for strings
whose display width differs from their character count (0 for ascii). -/
structure ValueDp where
  typecode : Typecode
  align : Align
  data : String
  ascii_char_width : Nat
  padding_offset : Nat := 0
deriving DecidableEq

/-- A column descriptor (external `dataproperty.ColumnDataProperty`):
resolved type tag, alignment, and ascii display width. -/
structure ColumnDp where
  typecode : Typecode
  align : Align
  ascii_char_width : Nat
deriving DecidableEq

/-- An output stream: `name` is `none` when the object has no `name`
attribute, `has_close` is whether the object has a `close` method. -/
structure OutStream where
  name : Option String
  has_close : Bool
deriving DecidableEq

/-- Errors raised by `AbstractTableWriter` (from `pytablewriter._error`),
plus markers for exceptions escaping the render hook or the write
callback during an iterative write. -/
inductive WriterError where
  | EmptyTableData
  | EmptyTableName
  | EmptyHeader
  | EmptyValue
  | NotSupported
  | NullStream
  | RenderFailure
  | CallbackFailure
deriving DecidableEq

/-- Mutable state of an `AbstractTableWriter`, restricted to the fields
the verified code paths read or write.  Defaults follow `__init__`. -/
structure Writer where
  stream : Option OutStream := some { name := some "<stdout>", has_close := true }
  table_name : Option String := none
  header_list : List String := []
  value_matrix : List (List ValueDp) := []
  type_hint_list : Option (List Typecode) := none
  is_write_header : Bool := true
  is_write_header_separator_row : Bool := true
  is_write_value_separator_row : Bool := false
  is_write_opening_row : Bool := false
  is_write_closing_row : Bool := false
  use_default_header : Bool := false
  is_padding : Bool := true
  is_remove_line_break : Bool := false
  is_require_table_name : Bool := false
  is_require_header : Bool := false
  support_split_write : Bool := false
  iteration_length : Int := -1
  iter_count : Option Nat := none
  is_complete_table_dp_preprocess : Bool := false
  is_complete_table_property_preprocess : Bool := false
  is_complete_header_preprocess : Bool := false
  is_complete_value_matrix_preprocess : Bool := false
  column_dp_list : List ColumnDp := []
  table_header_list : List String := []
  table_value_matrix : List (List String) := []
  table_value_dp_matrix : List (List ValueDp) := []
deriving DecidableEq

/-- `__clear_preprocess_status` (lines 620-635): resets the four
stage-completion flags; the cached artifacts are left in place. -/
def clear_preprocess_status (w : Writer) : Writer :=
  { w with
    is_complete_table_dp_preprocess := false
    is_complete_table_property_preprocess := false
    is_complete_header_preprocess := false
    is_complete_value_matrix_preprocess := false }

/-- `__clear_preprocess_data` (lines 637-652): empties the four cached
artifacts. -/
def clear_preprocess_data (w : Writer) : Writer :=
  { w with
    column_dp_list := []
    table_header_list := []
    table_value_matrix := []
    table_value_dp_matrix := [] }

/-- `__clear_preprocess` (lines 654-656). -/
def clear_preprocess (w : Writer) : Writer :=
  clear_preprocess_data (clear_preprocess_status w)

/-- `table_name` property setter (lines 90-92): stores the value and does
nothing else. -/
def set_table_name (w : Writer) (v : Option String) : Writer :=
  { w with table_name := v }

/-- `header_list` property setter (lines 102-104): stores the value in the
extractor and does nothing else - in particular it does not call
`__clear_preprocess`. -/
def set_header_list (w : Writer) (v : List String) : Writer :=
  { w with header_list := v }

/-- `value_matrix` property setter (lines 114-117): stores the matrix and
then calls `__clear_preprocess`. -/
def set_value_matrix (w : Writer) (v : List (List ValueDp)) : Writer :=
  clear_preprocess { w with value_matrix := v }

/-- `type_hint_list` property setter (lines 168-171): stores the hints and
then calls `__clear_preprocess`. -/
def set_type_hint_list (w : Writer) (v : Option (List Typecode)) : Writer :=
  clear_preprocess { w with type_hint_list := v }

/-- `typepy.is_null_string` on the optional table name: `None` or a string
that is empty after stripping whitespace. -/
def is_null_string : Option String → Bool
  | none => true
  | some s => s.trim.isEmpty

/-- `_verify_table_name` (lines 519-523). -/
def verify_table_name (w : Writer) : Except WriterError Unit :=
  if w.is_require_table_name && is_null_string w.table_name then
    .error .EmptyTableName
  else
    .ok ()

/-- `_verify_stream` (lines 525-527): raises the null-stream `IOError`. -/
def verify_stream (w : Writer) : Except WriterError Unit :=
  if w.stream.isNone then .error .NullStream else .ok ()

/-- `_verify_header` together with `_validate_empty_header`
(lines 529-540). -/
def verify_header (w : Writer) : Except WriterError Unit :=
  if w.is_require_header && !w.use_default_header then
    if w.header_list.isEmpty then .error .EmptyHeader else .ok ()
  else
    .ok ()

/-- `_verify_value_matrix` (lines 542-544). -/
def verify_value_matrix (w : Writer) : Except WriterError Unit :=
  if w.value_matrix.isEmpty then .error .EmptyValue else .ok ()

/-- `_verify_property` (lines 496-511): table name, stream, the combined
three-way emptiness check, header requiredness, then the value-matrix
emptiness check whose `EmptyValueError` is swallowed. -/
def verify_property (w : Writer) : Except WriterError Unit :=
  match verify_table_name w with
  | .error e => .error e
  | .ok _ =>
    match verify_stream w with
    | .error e => .error e
    | .ok _ =>
      if w.header_list.isEmpty && w.value_matrix.isEmpty
          && w.table_value_dp_matrix.isEmpty then
        .error .EmptyTableData
      else
        match verify_header w with
        | .error e => .error e
        | .ok _ =>
          match verify_value_matrix w with
          | .error .EmptyValue => .ok ()
          | .error e => .error e
          | .ok _ => .ok ()

/-- `tabledata.convert_idx_to_alphabet` (external dependency): spreadsheet
style column naming, 0 ↦ "A", 25 ↦ "Z", 26 ↦ "AA". -/
def convert_idx_to_alphabet (idx : Nat) : String :=
  if h : idx < 26 then
    String.singleton (Char.ofNat (65 + idx))
  else
    convert_idx_to_alphabet (idx / 26 - 1) ++ String.singleton (Char.ofNat (65 + idx % 26))
termination_by idx
decreasing_by
  have h1 : idx / 26 ≤ idx := Nat.div_le_self idx 26
  omega

/-- Longest row of a matrix. -/
def maxRowLen (matrix : List (List ValueDp)) : Nat :=
  matrix.foldr (fun row acc => max row.length acc) 0

/-- Largest measured display width among a list of cells. -/
def maxWidthOfCells (cells : List ValueDp) : Nat :=
  cells.foldr (fun v acc => max v.ascii_char_width acc) 0

/-- Resolution of a column's type tag and alignment from the previous
descriptor, the optional type hint, and the column's classified cells.
The source delegates this to the external `dataproperty` package and the
spec leaves the mixed-type resolution order open, so it is abstracted as
a parameter; the width computation is concrete. -/
abbrev ResolveFn :=
  Option ColumnDp → Option Typecode → List ValueDp → Typecode × Align

/-- Modelled from the spec:
`dataproperty.DataPropertyExtractor.to_column_dp_list` (external
dependency called at lines 301-302 and 564-565) merges the classified
matrix into the previously accumulated column descriptors.  Per spec 4.2
a column's width is the maximum of the header display width and every
cell display width, extended - not replaced - by whatever was
accumulated before, and never below the configured minimum column width
of 1 (`__init__` sets `min_column_width = 1`); type and alignment
resolution is underspecified (spec 9) and supplied by `resolve`. -/
def to_column_dp_list (resolve : ResolveFn) (hints : Option (List Typecode))
    (headerWidths : List Nat) (matrix : List (List ValueDp))
    (prev : List ColumnDp) : List ColumnDp :=
  let ncols := max (max prev.length (maxRowLen matrix)) headerWidths.length
  (List.range ncols).map fun k =>
    let cells := matrix.filterMap fun row => row[k]?
    let prevDp := prev[k]?
    let ta := resolve prevDp (hints.bind fun hs => hs[k]?) cells
    { typecode := ta.1
      align := ta.2
      ascii_char_width :=
        max 1 (max ((prevDp.map fun d => d.ascii_char_width).getD 0)
          (max ((headerWidths[k]?).getD 0) (maxWidthOfCells cells))) }

/-- `_preprocess_table_dp` (lines 546-567): generate default headers when
configured, classify the working matrix (here: the matrix is already
classified, see the module comment), and fold it into the accumulated
column descriptor list.  Header display widths are measured as character
counts (the wide-character measurement lives in the external packages). -/
def preprocess_table_dp (resolve : ResolveFn) (w : Writer) : Writer :=
  if w.is_complete_table_dp_preprocess then w
  else
    let w1 :=
      if w.header_list.isEmpty && w.use_default_header then
        { w with header_list :=
            (List.range (w.value_matrix.headD []).length).map convert_idx_to_alphabet }
      else w
    { w1 with
      table_value_dp_matrix := w1.value_matrix
      column_dp_list :=
        to_column_dp_list resolve w1.type_hint_list
          (w1.header_list.map fun h => h.length) w1.value_matrix w1.column_dp_list
      is_complete_table_dp_preprocess := true }

/-- `dataproperty.ColumnDataProperty.extend_width`: widen the column. -/
def extend_width (dp : ColumnDp) (n : Nat) : ColumnDp :=
  { dp with ascii_char_width := dp.ascii_char_width + n }

/-- `_preprocess_table_property` (lines 569-581): when the iteration
counter equals 1, extend every column width by
`math.ceil(width * 0.25) = (width + 3) / 4`; then mark the stage
complete.  Outside an iterative write the counter is `None`, never 1. -/
def preprocess_table_property (w : Writer) : Writer :=
  if w.is_complete_table_property_preprocess then w
  else
    let cols :=
      if w.iter_count = some 1 then
        w.column_dp_list.map fun dp => extend_width dp ((dp.ascii_char_width + 3) / 4)
      else w.column_dp_list
    { w with
      column_dp_list := cols
      is_complete_table_property_preprocess := true }

/-- One character of the run `[\0\t\r\n]+` collapsed by
`__remove_line_break` (line 68). -/
def isLineBreakChar (c : Char) : Bool :=
  c = Char.ofNat 0 || c = '\t' || c = '\r' || c = '\n'

/-- Replace every maximal run of line-break characters by one space; the
boolean tracks whether the previous character belonged to a run. -/
def collapseLineBreaksAux : Bool → List Char → List Char
  | _, [] => []
  | inRun, c :: rest =>
    if isLineBreakChar c then
      (if inRun then [] else [' ']) ++ collapseLineBreaksAux true rest
    else
      c :: collapseLineBreaksAux false rest

/-- `__remove_line_break` (lines 658-662). -/
def remove_line_break (is_remove : Bool) (s : String) : String :=
  if is_remove then String.mk (collapseLineBreaksAux false s.data) else s

/-- `_get_header_item` (lines 451-457): force the header value to a
string, strip it, apply the static `"{:s}"` header format, and remove
line breaks when configured. -/
def get_header_item (is_remove : Bool) (header : String) : String :=
  remove_line_break is_remove header.trim

/-- `_preprocess_header` (lines 583-595). -/
def preprocess_header (w : Writer) : Writer :=
  if w.is_complete_header_preprocess then w
  else
    { w with
      table_header_list :=
        (w.column_dp_list.zip w.header_list).map fun p =>
          get_header_item w.is_remove_line_break p.2
      is_complete_header_preprocess := true }

/-- `__align_char_mapping` (lines 238-243). -/
def align_char : Align → Char
  | .AUTO => '<'
  | .LEFT => '<'
  | .RIGHT => '>'
  | .CENTER => '^'

/-- `_get_padding_len` (lines 442-449): zero when padding is off; the
value descriptor's `get_padding_len(column_width)` when a descriptor is
given (the column width plus the descriptor's wide-character offset);
the bare column width otherwise. -/
def get_padding_len (is_padding : Bool) (col_dp : ColumnDp)
    (value_dp : Option ValueDp) : Nat :=
  if !is_padding then 0
  else
    match value_dp with
    | some v => col_dp.ascii_char_width + v.padding_offset
    | none => col_dp.ascii_char_width

/-- The alignment choice of `__get_align_format` (lines 470-475): a cell
whose column resolved to string but whose own type is integer or real
number keeps its own alignment; every other cell takes the column's. -/
def chosen_align (col_dp : ColumnDp) (value_dp : ValueDp) : Align :=
  if col_dp.typecode = Typecode.STRING
      ∧ (value_dp.typecode = Typecode.INTEGER
          ∨ value_dp.typecode = Typecode.REAL_NUMBER) then
    value_dp.align
  else
    col_dp.align

/-- `__get_align_format` (lines 470-482): the Python format string built
from the chosen alignment character and the padding length. -/
def get_align_format (is_padding : Bool) (col_dp : ColumnDp)
    (value_dp : ValueDp) : String :=
  let ac := align_char (chosen_align col_dp value_dp)
  let plen := get_padding_len is_padding col_dp (some value_dp)
  if plen > 0 then
    "\x7b:" ++ String.singleton ac ++ toString plen ++ "s\x7d"
  else
    "\x7b:" ++ String.singleton ac ++ "s\x7d"

/-- Application of a Python `"{:<N s}"`-style format: pad to the given
length with the given alignment character (Python centers with the extra
space on the right). -/
def format_pad (ac : Char) (plen : Nat) (s : String) : String :=
  let padn := plen - s.length
  if ac = '>' then String.mk (List.replicate padn ' ') ++ s
  else if ac = '^' then
    String.mk (List.replicate (padn / 2) ' ') ++ s
      ++ String.mk (List.replicate (padn - padn / 2) ' ')
  else s ++ String.mk (List.replicate padn ' ')

/-- `_get_row_item` (lines 463-465): the cell's display string, line
breaks removed when configured, padded per `__get_align_format`. -/
def get_row_item (is_padding is_remove : Bool) (col_dp : ColumnDp)
    (value_dp : ValueDp) : String :=
  format_pad (align_char (chosen_align col_dp value_dp))
    (get_padding_len is_padding col_dp (some value_dp))
    (remove_line_break is_remove value_dp.data)

/-- `_preprocess_value_matrix` (lines 597-612). -/
def preprocess_value_matrix (w : Writer) : Writer :=
  if w.is_complete_value_matrix_preprocess then w
  else
    { w with
      table_value_matrix :=
        w.table_value_dp_matrix.map fun row =>
          (w.column_dp_list.zip row).map fun p =>
            get_row_item w.is_padding w.is_remove_line_break p.1 p.2
      is_complete_value_matrix_preprocess := true }

/-- `_preprocess` (lines 614-618): the four stages in order. -/
def preprocess (resolve : ResolveFn) (w : Writer) : Writer :=
  preprocess_value_matrix (preprocess_header
    (preprocess_table_property (preprocess_table_dp resolve w)))

/-- The stream names `close` treats as standard streams (line 266). -/
def stdStreamNames : List String := ["<stdin>", "<stdout>", "<stderr>"]

/-- Whether the writer's stream is attached and carries a standard-stream
name. -/
def is_std_stream (w : Writer) : Bool :=
  match w.stream with
  | some s =>
    match s.name with
    | some n => stdStreamNames.contains n
    | none => false
  | none => false

/-- `close` (lines 260-276): return early for a named standard stream
(the caught `AttributeError` covers a missing stream or a stream without
a `name`); otherwise call `close` - tolerating its absence - and null
the stream reference in the `finally` block. -/
def close (w : Writer) : Writer :=
  match w.stream with
  | some s =>
    match s.name with
    | some n => if stdStreamNames.contains n then w else { w with stream := none }
    | none => { w with stream := none }
  | none => { w with stream := none }

/-- Whether `close` logs the missing-`close`-method warning (line 274):
reached when the standard-stream early return is not taken and the
stream object lacks a `close` method (or the stream is already gone). -/
def close_warns (w : Writer) : Bool :=
  match w.stream with
  | some s =>
    match s.name with
    | some n => if stdStreamNames.contains n then false else !s.has_close
    | none => !s.has_close
  | none => true

/-- `write_table` (lines 364-372): verify, then run `_write_table` - the
abstract render hook, whose shared part is driving the pipeline. -/
def write_table (resolve : ResolveFn) (w : Writer) : Except WriterError Writer :=
  match verify_property w with
  | .error e => .error e
  | .ok _ => .ok (preprocess resolve w)

/-- The widths of the accumulated column descriptors, in column order. -/
def columnWidths (w : Writer) : List Nat :=
  w.column_dp_list.map fun c => c.ascii_char_width

/-- What the base class lets a format renderer observe while one chunk of
an iterative write is being rendered: the 1-based chunk counter, the
three emission flags as the render hook sees them, the resolved column
widths at render time, and whether a value-row separator is emitted
after the chunk. -/
structure IterStepRecord where
  idx : Nat
  write_header : Bool
  write_opening_row : Bool
  write_closing_row : Bool
  widths : List Nat
  sep_after : Bool
deriving DecidableEq

/-- Steps (b)-(c) of one chunk iteration (lines 406-410): force the
closing-row flag when this is the final iteration, replace the working
value matrix by the chunk, and clear the four stage-completion flags -
the accumulated column descriptors are left in place. -/
def iterChunkSet (isFinal : Bool) (chunk : List (List ValueDp)) (w : Writer) : Writer :=
  clear_preprocess_status
    { (if isFinal then { w with is_write_closing_row := true } else w) with
      value_matrix := chunk }

/-- The `for work_matrix in self.value_matrix` loop of `_write_table_iter`
(lines 400-433).  `renderFails n` / `callbackFails n` say whether the
render hook / the write callback raises while processing the chunk with
1-based counter `n`; the caller maintains `iter_count = some n`. -/
def writeTableIterLoop (resolve : ResolveFn) (renderFails callbackFails : Nat → Bool) :
    Writer → List (List (List ValueDp)) → Writer × List IterStepRecord × Option WriterError
  | w, [] => (w, [], none)
  | w, chunk :: rest =>
    let cnt := w.iter_count.getD 0
    let isFinal :=
      decide (0 < w.iteration_length) && decide (w.iteration_length ≤ (cnt : Int))
    let w2 := iterChunkSet isFinal chunk w
    if renderFails cnt then
      (w2, [], some WriterError.RenderFailure)
    else
      let w3 := preprocess resolve w2
      let rec0 : IterStepRecord :=
        { idx := cnt
          write_header := w3.is_write_header
          write_opening_row := w3.is_write_opening_row
          write_closing_row := w3.is_write_closing_row
          widths := columnWidths w3
          sep_after := !isFinal }
      let w4 := { w3 with is_write_opening_row := false, is_write_header := false }
      if callbackFails cnt then
        (w4, [rec0], some WriterError.CallbackFailure)
      else if isFinal then
        (w4, [rec0], none)
      else
        let w5 := { w4 with iter_count := some (cnt + 1) }
        let r := writeTableIterLoop resolve renderFails callbackFails w5 rest
        (r.1, rec0 :: r.2.1, r.2.2)

/-- Lines 392-438 of `_write_table_iter`: stash the three emission flags,
clear the closing-row flag, start the counter at 1, run the loop, and in
the `finally` block - on success and on exception alike - restore the
stashed flags and reset the counter to `None`. -/
def writeTableIterScoped (resolve : ResolveFn) (renderFails callbackFails : Nat → Bool)
    (w : Writer) (chunks : List (List (List ValueDp))) :
    Writer × List IterStepRecord × Option WriterError :=
  let r := writeTableIterLoop resolve renderFails callbackFails
    { w with is_write_closing_row := false, iter_count := some 1 } chunks
  ({ r.1 with
      is_write_header := w.is_write_header
      is_write_opening_row := w.is_write_opening_row
      is_write_closing_row := w.is_write_closing_row
      iter_count := none },
    r.2.1, r.2.2)

/-- `_write_table_iter` (lines 374-440): capability check, table-name and
stream verification, the header+value emptiness check, header
requiredness, then the stash/loop/restore section.  `chunks` is the
sequence of row-group matrices held by `self.value_matrix`. -/
def write_table_iter (resolve : ResolveFn) (renderFails callbackFails : Nat → Bool)
    (w : Writer) (chunks : List (List (List ValueDp))) :
    Writer × List IterStepRecord × Option WriterError :=
  if !w.support_split_write then
    (w, [], some WriterError.NotSupported)
  else
    match verify_table_name w with
    | .error e => (w, [], some e)
    | .ok _ =>
      match verify_stream w with
      | .error e => (w, [], some e)
      | .ok _ =>
        if w.header_list.isEmpty && chunks.isEmpty then
          (w, [], some WriterError.EmptyTableData)
        else
          match verify_header w with
          | .error e => (w, [], some e)
          | .ok _ => writeTableIterScoped resolve renderFails callbackFails w chunks

/-- Whether an `Except` verification step succeeded. -/
def exceptOk : Except WriterError Unit → Bool
  | .ok _ => true
  | .error _ => false

/-- Whether `_write_table_iter` gets past all of its pre-loop checks for
the given writer state and chunk source. -/
def iter_precheck (w : Writer) (chunks : List (List (List ValueDp))) : Bool :=
  w.support_split_write && exceptOk (verify_table_name w) && exceptOk (verify_stream w)
    && !(w.header_list.isEmpty && chunks.isEmpty) && exceptOk (verify_header w)

/-- Pointwise growth of column-width lists: no column disappears and no
shared column shrinks. -/
def widthsGrow (xs ys : List Nat) : Prop :=
  xs.length ≤ ys.length ∧ ∀ (k a b : Nat), xs[k]? = some a → ys[k]? = some b → a ≤ b

/-- A concrete type/alignment resolution used to instantiate the abstract
`ResolveFn` on sample runs. -/
def resolve0 : ResolveFn := fun _ _ _ => (Typecode.STRING, Align.LEFT)

/-- A render hook / callback that never raises. -/
def noFail : Nat → Bool := fun _ => false

/-- A classified string cell of the given display width. -/
def cellW (n : Nat) : ValueDp :=
  { typecode := Typecode.STRING, align := Align.LEFT, data := "", ascii_char_width := n }

/-- Three one-row chunks, each holding one cell of width 3. -/
def chunksThree : List (List (List ValueDp)) :=
  [[[cellW 3]], [[cellW 3]], [[cellW 3]]]

/-- A writer of an iteration-capable format with header, opening and
closing rows enabled, one header column, and the iteration length left
at its indefinite default of -1. -/
def iterDemoWriter : Writer :=
  { support_split_write := true
    is_write_header := true
    is_write_opening_row := true
    is_write_closing_row := true
    header_list := ["a"]
    iteration_length := -1 }

/-- A writer in the middle of a single-shot write: one accumulated column
of width 4, stage 2 not yet complete, and no active iteration
(`iter_count = none`, as in every single-shot pass). -/
def singleShotWriter : Writer :=
  { column_dp_list := [{ typecode := Typecode.INTEGER, align := Align.RIGHT, ascii_char_width := 4 }] }

/-- The same column state while the first chunk of an iterative write is
being processed (`iter_count = some 1`). -/
def firstIterWriter : Writer :=
  { column_dp_list := [{ typecode := Typecode.INTEGER, align := Align.RIGHT, ascii_char_width := 4 }]
    iter_count := some 1 }

/-- A writer whose pipeline cache is fully populated: all four completion
flags set and all four artifacts non-empty. -/
def cachedWriter : Writer :=
  { header_list := ["a"]
    value_matrix := [[cellW 2]]
    is_complete_table_dp_preprocess := true
    is_complete_table_property_preprocess := true
    is_complete_header_preprocess := true
    is_complete_value_matrix_preprocess := true
    column_dp_list := [{ typecode := Typecode.STRING, align := Align.LEFT, ascii_char_width := 2 }]
    table_header_list := ["a"]
    table_value_matrix := [["x"]]
    table_value_dp_matrix := [[cellW 2]] }

/-- A writer whose three emptiness-relevant inputs are all empty but whose
classified matrix is still populated. -/
def classifiedOnlyWriter : Writer :=
  { table_value_dp_matrix := [[cellW 2]] }

/-- The same state for an iteration-capable format: empty header and chunk
source, populated classified matrix. -/
def iterEmptyWriter : Writer :=
  { support_split_write := true, table_value_dp_matrix := [[cellW 2]] }

/-- C10: the `table_name` setter stores the new name and leaves the four
pipeline completion flags and the four cached artifacts exactly as they
were - unlike the value-matrix and type-hint setters, renaming the table
never invalidates the preprocessing cache. -/
theorem c10_table_name_setter_frame (w : Writer) (v : Option String) :
    (set_table_name w v).table_name = v ∧
    (set_table_name w v).is_complete_table_dp_preprocess = w.is_complete_table_dp_preprocess ∧
    (set_table_name w v).is_complete_table_property_preprocess = w.is_complete_table_property_preprocess ∧
    (set_table_name w v).is_complete_header_preprocess = w.is_complete_header_preprocess ∧
    (set_table_name w v).is_complete_value_matrix_preprocess = w.is_complete_value_matrix_preprocess ∧
    (set_table_name w v).column_dp_list = w.column_dp_list ∧
    (set_table_name w v).table_header_list = w.table_header_list ∧
    (set_table_name w v).table_value_matrix = w.table_value_matrix ∧
    (set_table_name w v).table_value_dp_matrix = w.table_value_dp_matrix :=
  ⟨rfl, rfl, rfl, rfl, rfl, rfl, rfl, rfl, rfl⟩

/-- C2 counterexample: reassigning the header list does NOT invalidate the
pipeline cache.  On a writer with a fully populated cache, the header
setter leaves every completion flag set and every artifact in place, so
the claim that all three setters force full re-classification is false
for the header setter. -/
theorem c2_header_setter_keeps_cache :
    (set_header_list cachedWriter ["changed"]).is_complete_table_dp_preprocess = true ∧
    (set_header_list cachedWriter ["changed"]).is_complete_table_property_preprocess = true ∧
    (set_header_list cachedWriter ["changed"]).is_complete_header_preprocess = true ∧
    (set_header_list cachedWriter ["changed"]).is_complete_value_matrix_preprocess = true ∧
    (set_header_list cachedWriter ["changed"]).column_dp_list ≠ [] :=
  ⟨rfl, rfl, rfl, rfl, by decide⟩

/-- C2 amended: reassigning the value matrix or the type-hint list fully
invalidates the pipeline cache (all four completion flags false, all
four artifacts cleared); reassigning the header list stores the new
header but leaves all four flags and all four artifacts untouched. -/
theorem c2_invalidation_rule (w : Writer) (m : List (List ValueDp))
    (t : Option (List Typecode)) (hl : List String) :
    ((set_value_matrix w m).is_complete_table_dp_preprocess = false ∧
     (set_value_matrix w m).is_complete_table_property_preprocess = false ∧
     (set_value_matrix w m).is_complete_header_preprocess = false ∧
     (set_value_matrix w m).is_complete_value_matrix_preprocess = false ∧
     (set_value_matrix w m).column_dp_list = [] ∧
     (set_value_matrix w m).table_header_list = [] ∧
     (set_value_matrix w m).table_value_matrix = [] ∧
     (set_value_matrix w m).table_value_dp_matrix = []) ∧
    ((set_type_hint_list w t).is_complete_table_dp_preprocess = false ∧
     (set_type_hint_list w t).is_complete_table_property_preprocess = false ∧
     (set_type_hint_list w t).is_complete_header_preprocess = false ∧
     (set_type_hint_list w t).is_complete_value_matrix_preprocess = false ∧
     (set_type_hint_list w t).column_dp_list = [] ∧
     (set_type_hint_list w t).table_header_list = [] ∧
     (set_type_hint_list w t).table_value_matrix = [] ∧
     (set_type_hint_list w t).table_value_dp_matrix = []) ∧
    ((set_header_list w hl).header_list = hl ∧
     (set_header_list w hl).is_complete_table_dp_preprocess = w.is_complete_table_dp_preprocess ∧
     (set_header_list w hl).is_complete_table_property_preprocess = w.is_complete_table_property_preprocess ∧
     (set_header_list w hl).is_complete_header_preprocess = w.is_complete_header_preprocess ∧
     (set_header_list w hl).is_complete_value_matrix_preprocess = w.is_complete_value_matrix_preprocess ∧
     (set_header_list w hl).column_dp_list = w.column_dp_list ∧
     (set_header_list w hl).table_header_list = w.table_header_list ∧
     (set_header_list w hl).table_value_matrix = w.table_value_matrix ∧
     (set_header_list w hl).table_value_dp_matrix = w.table_value_dp_matrix) :=
  ⟨⟨rfl, rfl, rfl, rfl, rfl, rfl, rfl, rfl⟩,
   ⟨rfl, rfl, rfl, rfl, rfl, rfl, rfl, rfl⟩,
   ⟨rfl, rfl, rfl, rfl, rfl, rfl, rfl, rfl, rfl⟩⟩

/-- C1 counterexample: on the only pass of a single-shot write the
iteration counter is `None`, so the width extension is NOT applied - the
pass completes with the column width still 4, where the claim's
single-shot disjunct demands `4 + ceil(4 * 0.25) = 5`. -/
theorem c1_single_shot_no_extension :
    (preprocess_table_property singleShotWriter).column_dp_list =
      [{ typecode := Typecode.INTEGER, align := Align.RIGHT, ascii_char_width := 4 }] ∧
    (preprocess_table_property singleShotWriter).is_complete_table_property_preprocess = true := by
  decide

/-- C1 amended: the one-time extension by `ceil(width * 0.25)` is applied
exactly when the column-property stage is not yet complete and the
iteration counter equals 1 - i.e. while the first chunk of an iterative
write is processed; when the stage is already complete the pass is a
no-op, and on any pass with a counter other than 1 (in particular the
`None` of every single-shot write) the widths are left unchanged. -/
theorem c1_width_extension_first_chunk_only (w : Writer) :
    (w.is_complete_table_property_preprocess = true → preprocess_table_property w = w) ∧
    (w.is_complete_table_property_preprocess = false →
      (preprocess_table_property w).is_complete_table_property_preprocess = true ∧
      (w.iter_count = some 1 →
        (preprocess_table_property w).column_dp_list =
          w.column_dp_list.map fun dp => extend_width dp ((dp.ascii_char_width + 3) / 4)) ∧
      (w.iter_count ≠ some 1 →
        (preprocess_table_property w).column_dp_list = w.column_dp_list)) := by
  refine ⟨fun h => ?_, fun h => ?_⟩
  · simp [preprocess_table_property, h]
  · by_cases hc : w.iter_count = some 1
    · exact ⟨by simp [preprocess_table_property, h], fun _ => by simp [preprocess_table_property, h, hc],
        fun hn => absurd hc hn⟩
    · exact ⟨by simp [preprocess_table_property, h], fun h1 => absurd h1 hc,
        fun _ => by simp [preprocess_table_property, h, hc]⟩

/-- C1 witness: on the first chunk of an iterative write the extension is
applied, widening the width-4 column to 5. -/
theorem c1_witness :
    firstIterWriter.is_complete_table_property_preprocess = false ∧
    firstIterWriter.iter_count = some 1 ∧
    (preprocess_table_property firstIterWriter).column_dp_list =
      firstIterWriter.column_dp_list.map
        (fun dp => extend_width dp ((dp.ascii_char_width + 3) / 4)) :=
  ⟨rfl, rfl, ((c1_width_extension_first_chunk_only firstIterWriter).2 rfl).2.1 rfl⟩

/-- C8: a value cell in a column that resolved to string type, whose own
classified type is integer or real number, is formatted with its own
alignment; every other cell is formatted with the column's alignment
(`chosen_align` is the alignment `__get_align_format` and the rendered
row items use). -/
theorem c8_string_column_numeric_cell_alignment (col : ColumnDp) (val : ValueDp) :
    (col.typecode = Typecode.STRING →
      (val.typecode = Typecode.INTEGER ∨ val.typecode = Typecode.REAL_NUMBER) →
      chosen_align col val = val.align) ∧
    (¬(col.typecode = Typecode.STRING ∧
        (val.typecode = Typecode.INTEGER ∨ val.typecode = Typecode.REAL_NUMBER)) →
      chosen_align col val = col.align) := by
  refine ⟨fun h1 h2 => ?_, fun h => ?_⟩
  · unfold chosen_align
    rw [if_pos ⟨h1, h2⟩]
  · unfold chosen_align
    rw [if_neg h]

/-- C8 witness: an integer-typed cell in a left-aligned string column
keeps its own right alignment, while a string cell in the same column
takes the column's left alignment. -/
theorem c8_witness :
    chosen_align
      { typecode := Typecode.STRING, align := Align.LEFT, ascii_char_width := 3 }
      { typecode := Typecode.INTEGER, align := Align.RIGHT, data := "1", ascii_char_width := 1 }
      = Align.RIGHT ∧
    chosen_align
      { typecode := Typecode.STRING, align := Align.LEFT, ascii_char_width := 3 }
      { typecode := Typecode.STRING, align := Align.LEFT, data := "x", ascii_char_width := 1 }
      = Align.LEFT :=
  ⟨(c8_string_column_numeric_cell_alignment _ _).1 rfl (Or.inl rfl),
   (c8_string_column_numeric_cell_alignment _ _).2 (by decide)⟩

/-- Closed form of `close`: a no-op exactly on a named standard stream,
otherwise the writer with its stream reference nulled. -/
theorem close_eq (w : Writer) :
    close w = if is_std_stream w = true then w else { w with stream := none } := by
  unfold close is_std_stream
  rcases h : w.stream with _ | s
  · simp [h]
  · rcases hn : s.name with _ | n
    · simp [h, hn]
    · by_cases hc : n ∈ stdStreamNames <;> simp [h, hn, hc]

/-- A writer whose stream reference is gone is not a standard stream. -/
theorem is_std_stream_none (w : Writer) : is_std_stream { w with stream := none } = false := rfl

/-- C9 counterexample: for the default writer - attached to a stream named
`"<stdout>"` - `close` returns early and does NOT clear the stream
reference, so the stream reference is not always nulled in a final
step. -/
theorem c9_std_stream_not_cleared :
    close ({} : Writer) = ({} : Writer) ∧ ({} : Writer).stream ≠ none := by
  exact ⟨rfl, by decide⟩

/-- The warning of `close` fires exactly when a non-standard attached
stream lacks a `close` method. -/
theorem close_warns_eq (w : Writer) (s : OutStream) (hsome : w.stream = some s)
    (hs : is_std_stream w = false) : close_warns w = !s.has_close := by
  obtain ⟨sname, hasc⟩ := s
  unfold is_std_stream at hs
  unfold close_warns
  rw [hsome] at hs ⊢
  rcases sname with _ | n
  · rfl
  · simp only at hs ⊢
    rw [hs]
    simp

/-- C9 amended: `close` is idempotent; it is a full no-op (including the
stream reference) on a named standard stream; in every other case it
nulls the stream reference, and it logs the missing-`close` warning and
continues exactly when the attached stream lacks a `close` method. -/
theorem c9_close_rule (w : Writer) :
    close (close w) = close w ∧
    (is_std_stream w = true → close w = w) ∧
    (is_std_stream w = false → (close w).stream = none) ∧
    (is_std_stream w = false → ∀ s, w.stream = some s → close_warns w = !s.has_close) := by
  cases hIs : is_std_stream w with
  | true =>
    have h1 : close w = w := by rw [close_eq w, if_pos hIs]
    exact ⟨by rw [h1, h1], fun _ => h1, fun hf => Bool.noConfusion hf,
      fun hf => Bool.noConfusion hf⟩
  | false =>
    have h1 : close w = { w with stream := none } := by
      rw [close_eq w, if_neg (by simp [hIs])]
    refine ⟨?_, fun ht => Bool.noConfusion ht, fun _ => by rw [h1],
      fun _ s hsome => close_warns_eq w s hsome hIs⟩
    rw [h1, close_eq, is_std_stream_none]
    simp

/-- C9 witness: closing a writer attached to an ordinary named stream that
lacks a `close` method nulls the stream reference and logs the warning;
`close` is idempotent there. -/
theorem c9_witness :
    is_std_stream { stream := some { name := some "out.txt", has_close := false } } = false ∧
    (close { stream := some { name := some "out.txt", has_close := false } }).stream = none ∧
    close_warns { stream := some { name := some "out.txt", has_close := false } } = true ∧
    close (close { stream := some { name := some "out.txt", has_close := false } })
      = close { stream := some { name := some "out.txt", has_close := false } } := by
  refine ⟨by decide, (c9_close_rule _).2.2.1 (by decide), ?_, (c9_close_rule _).1⟩
  have := (c9_close_rule { stream := some { name := some "out.txt", has_close := false } }).2.2.2
    (by decide) { name := some "out.txt", has_close := false } rfl
  simpa using this

/-- C6 counterexample: in the 3-chunk indefinite-length scenario the
value-row separator is emitted after EVERY chunk - including chunk 3 -
because with `iteration_length = -1` no chunk is ever final; the claim's
reading that only chunks 1 and 2 are followed by a separator is false. -/
theorem c6_separator_after_every_chunk :
    ((write_table_iter resolve0 noFail noFail iterDemoWriter chunksThree).2.1.map
      fun r => r.sep_after) = [true, true, true] := by
  decide

/-- C6 amended: iterative write over 3 chunks with the indefinite default
iteration length: only chunk 1 is rendered with the header and opening
row, every chunk (1, 2 and 3) is followed by a value-row separator, and
no chunk receives closing-row treatment; the closing-row flag is forced
on only when a positive configured iteration length is reached by the
1-based chunk counter, as the run with `iteration_length = 2` shows -
its second chunk renders with the closing row, gets no trailing
separator, and the loop stops without touching chunk 3. -/
theorem c6_indefinite_three_chunks :
    (write_table_iter resolve0 noFail noFail iterDemoWriter chunksThree).2.1 =
      [{ idx := 1, write_header := true, write_opening_row := true,
         write_closing_row := false, widths := [4], sep_after := true },
       { idx := 2, write_header := false, write_opening_row := false,
         write_closing_row := false, widths := [4], sep_after := true },
       { idx := 3, write_header := false, write_opening_row := false,
         write_closing_row := false, widths := [4], sep_after := true }] ∧
    (write_table_iter resolve0 noFail noFail iterDemoWriter chunksThree).2.2 = none ∧
    (write_table_iter resolve0 noFail noFail
        { iterDemoWriter with iteration_length := 2 } chunksThree).2.1 =
      [{ idx := 1, write_header := true, write_opening_row := true,
         write_closing_row := false, widths := [4], sep_after := true },
       { idx := 2, write_header := false, write_opening_row := false,
         write_closing_row := true, widths := [4], sep_after := false }] := by
  refine ⟨by decide, by decide, by decide⟩

/-- C3: the single-shot property verification raises `EmptyTableDataError`
if and only if its table-name and stream checks pass and the header
list, the value matrix and the classified matrix are all three empty;
and when only the value matrix is empty the swallowed `EmptyValueError`
lets verification succeed. -/
theorem verify_property_eq (w : Writer) :
    verify_property w =
      if w.is_require_table_name && is_null_string w.table_name then
        .error WriterError.EmptyTableName
      else if w.stream.isNone then .error WriterError.NullStream
      else if w.header_list.isEmpty && w.value_matrix.isEmpty
          && w.table_value_dp_matrix.isEmpty then
        .error WriterError.EmptyTableData
      else if (w.is_require_header && !w.use_default_header) && w.header_list.isEmpty then
        .error WriterError.EmptyHeader
      else .ok () := by
  unfold verify_property verify_table_name verify_stream verify_header verify_value_matrix
  by_cases h1 : (w.is_require_table_name && is_null_string w.table_name) = true <;>
    by_cases h2 : w.stream.isNone = true <;>
    by_cases h3 : (w.header_list.isEmpty && w.value_matrix.isEmpty
      && w.table_value_dp_matrix.isEmpty) = true <;>
    by_cases h4 : (w.is_require_header && !w.use_default_header) = true <;>
    by_cases h5 : w.header_list.isEmpty = true <;>
    by_cases h6 : w.value_matrix.isEmpty = true <;>
    simp [h1, h2, h3, h4, h5, h6]

theorem c3_verify_property_rule (w : Writer) :
    (verify_property w = .error WriterError.EmptyTableData ↔
      verify_table_name w = .ok () ∧ verify_stream w = .ok () ∧
      w.header_list.isEmpty = true ∧ w.value_matrix.isEmpty = true ∧
      w.table_value_dp_matrix.isEmpty = true) ∧
    (verify_table_name w = .ok () → verify_stream w = .ok () →
      w.value_matrix.isEmpty = true → w.header_list.isEmpty = false →
      verify_property w = .ok ()) := by
  have hv := verify_property_eq w
  by_cases h1 : (w.is_require_table_name && is_null_string w.table_name) = true <;>
    by_cases h2 : w.stream.isNone = true <;>
    by_cases h3 : w.header_list.isEmpty = true <;>
    by_cases h4 : w.value_matrix.isEmpty = true <;>
    by_cases h5 : w.table_value_dp_matrix.isEmpty = true <;>
    by_cases h6 : (w.is_require_header && !w.use_default_header) = true <;>
    simp [hv, verify_table_name, verify_stream, h1, h2, h3, h4, h5, h6]

/-- C3 witness: a writer with a populated classified matrix but empty
header and value matrix is not considered empty, and one with a header
but an empty value matrix passes verification outright. -/
theorem c3_witness :
    (verify_property classifiedOnlyWriter = .error WriterError.EmptyTableData ↔
      verify_table_name classifiedOnlyWriter = .ok () ∧
      verify_stream classifiedOnlyWriter = .ok () ∧
      classifiedOnlyWriter.header_list.isEmpty = true ∧
      classifiedOnlyWriter.value_matrix.isEmpty = true ∧
      classifiedOnlyWriter.table_value_dp_matrix.isEmpty = true) ∧
    verify_property { header_list := ["a"] } = .ok () :=
  ⟨(c3_verify_property_rule classifiedOnlyWriter).1,
   (c3_verify_property_rule { header_list := ["a"] }).2 rfl rfl rfl rfl⟩

/-- `_verify_header` can only raise `EmptyHeaderError`. -/
theorem verify_header_err (w : Writer) (e : WriterError)
    (h : verify_header w = .error e) : e = WriterError.EmptyHeader := by
  unfold verify_header at h
  by_cases h1 : (w.is_require_header && !w.use_default_header) = true <;>
    by_cases h2 : w.header_list.isEmpty = true <;> simp [h1, h2] at h
  exact h.symm

/-- An error escaping the chunk loop comes from the render hook or from
the write callback, never from the pre-loop verification. -/
theorem loop_err_cases (resolve : ResolveFn) (rf cf : Nat → Bool) :
    ∀ (chunks : List (List (List ValueDp))) (w : Writer),
      (writeTableIterLoop resolve rf cf w chunks).2.2 = none ∨
      (writeTableIterLoop resolve rf cf w chunks).2.2 = some WriterError.RenderFailure ∨
      (writeTableIterLoop resolve rf cf w chunks).2.2 = some WriterError.CallbackFailure := by
  intro chunks
  induction chunks with
  | nil => exact fun w => Or.inl rfl
  | cons c rest ih =>
    intro w
    simp only [writeTableIterLoop]
    by_cases h1 : rf (w.iter_count.getD 0) = true
    · simp [h1]
    · by_cases h2 : cf (w.iter_count.getD 0) = true
      · simp [h1, h2]
      · by_cases h3 : (decide (0 < w.iteration_length)
            && decide (w.iteration_length ≤ ((w.iter_count.getD 0 : Nat) : Int))) = true
        · simp [h1, h2, h3]
        · simpa [h1, h2, h3] using ih _

/-- `_write_table_iter` either fails one of its pre-loop checks - leaving
the state untouched and processing no chunk - or runs the stash/loop/
restore section. -/
theorem write_table_iter_split (resolve : ResolveFn) (rf cf : Nat → Bool)
    (w : Writer) (chunks : List (List (List ValueDp))) :
    (iter_precheck w chunks = true →
      write_table_iter resolve rf cf w chunks
        = writeTableIterScoped resolve rf cf w chunks) ∧
    (iter_precheck w chunks = false →
      ∃ e, write_table_iter resolve rf cf w chunks = (w, [], some e)) := by
  cases hsup : w.support_split_write with
  | false =>
    refine ⟨fun h => ?_, fun _ => ⟨WriterError.NotSupported, ?_⟩⟩
    · rw [iter_precheck, hsup] at h
      simp at h
    · simp [write_table_iter, hsup]
  | true =>
    rcases hn : verify_table_name w with en | un
    · refine ⟨fun h => ?_, fun _ => ⟨en, ?_⟩⟩
      · rw [iter_precheck, hn] at h
        simp [exceptOk] at h
      · simp [write_table_iter, hsup, hn]
    · obtain ⟨⟩ := un
      rcases hs : verify_stream w with es | us
      · refine ⟨fun h => ?_, fun _ => ⟨es, ?_⟩⟩
        · rw [iter_precheck, hs] at h
          simp [exceptOk] at h
        · simp [write_table_iter, hsup, hn, hs]
      · obtain ⟨⟩ := us
        by_cases hemp : (w.header_list.isEmpty && chunks.isEmpty) = true
        · refine ⟨fun h => ?_, fun _ => ⟨WriterError.EmptyTableData, ?_⟩⟩
          · rw [iter_precheck, hemp] at h
            simp at h
          · simp [write_table_iter, hsup, hn, hs, hemp]
        · rcases hh : verify_header w with eh | uh
          · refine ⟨fun h => ?_, fun _ => ⟨eh, ?_⟩⟩
            · rw [iter_precheck, hh] at h
              simp [exceptOk] at h
            · simp only [write_table_iter, hsup, hn, hs, hh]
              simp [hemp]
          · obtain ⟨⟩ := uh
            refine ⟨fun _ => ?_, fun hfalse => ?_⟩
            · simp only [write_table_iter, hsup, hn, hs, hh]
              simp [hemp]
            · rw [iter_precheck, hsup, hn, hs, hh] at hfalse
              simp [exceptOk, hemp] at hfalse

/-- C4: however the iterative write ends - chunks exhausted, final
iteration break, or an exception from the render hook or the callback
(any `renderFails`/`callbackFails`) - the three emission flags are
restored to their pre-call values, and whenever the loop was entered the
iteration counter is reset to `None`. -/
theorem c4_iter_flags_restored (resolve : ResolveFn) (rf cf : Nat → Bool)
    (w : Writer) (chunks : List (List (List ValueDp))) :
    (write_table_iter resolve rf cf w chunks).1.is_write_header = w.is_write_header ∧
    (write_table_iter resolve rf cf w chunks).1.is_write_opening_row = w.is_write_opening_row ∧
    (write_table_iter resolve rf cf w chunks).1.is_write_closing_row = w.is_write_closing_row ∧
    (iter_precheck w chunks = true →
      (write_table_iter resolve rf cf w chunks).1.iter_count = none) := by
  cases hpc : iter_precheck w chunks with
  | true =>
    have h := (write_table_iter_split resolve rf cf w chunks).1 hpc
    rw [h]
    exact ⟨rfl, rfl, rfl, fun _ => rfl⟩
  | false =>
    obtain ⟨e, he⟩ := (write_table_iter_split resolve rf cf w chunks).2 hpc
    rw [he]
    exact ⟨rfl, rfl, rfl, fun hc => Bool.noConfusion hc⟩

/-- C4 witness: the 3-chunk run passes the prechecks and ends with the
counter cleared; a run whose render hook raises on chunk 2 still
restores all three flags. -/
theorem c4_witness :
    iter_precheck iterDemoWriter chunksThree = true ∧
    (write_table_iter resolve0 noFail noFail iterDemoWriter chunksThree).1.iter_count = none ∧
    (write_table_iter resolve0 (fun n => n == 2) noFail iterDemoWriter
      chunksThree).1.is_write_closing_row = iterDemoWriter.is_write_closing_row :=
  ⟨by decide,
   (c4_iter_flags_restored resolve0 noFail noFail iterDemoWriter chunksThree).2.2.2 (by decide),
   (c4_iter_flags_restored resolve0 (fun n => n == 2) noFail iterDemoWriter chunksThree).2.2.1⟩

/-- C7: the iterative write raises `NotSupportedError` first when the
format lacks iterative support; otherwise it verifies table name, then
stream; then - with those passing - it raises `EmptyTableDataError`
exactly when the header list and the chunk source are both empty (the
classified matrix is not consulted), and finally it verifies header
requiredness; every failure leaves the state untouched with no chunk
processed. -/
theorem c7_iter_precondition_order (resolve : ResolveFn) (rf cf : Nat → Bool)
    (w : Writer) (chunks : List (List (List ValueDp))) :
    (w.support_split_write = false →
      write_table_iter resolve rf cf w chunks = (w, [], some WriterError.NotSupported)) ∧
    (w.support_split_write = true →
      ∀ e, verify_table_name w = .error e →
        write_table_iter resolve rf cf w chunks = (w, [], some e)) ∧
    (w.support_split_write = true → verify_table_name w = .ok () →
      ∀ e, verify_stream w = .error e →
        write_table_iter resolve rf cf w chunks = (w, [], some e)) ∧
    (w.support_split_write = true → verify_table_name w = .ok () → verify_stream w = .ok () →
      ((write_table_iter resolve rf cf w chunks).2.2 = some WriterError.EmptyTableData ↔
        w.header_list.isEmpty = true ∧ chunks.isEmpty = true) ∧
      (w.header_list.isEmpty = true → chunks.isEmpty = true →
        write_table_iter resolve rf cf w chunks = (w, [], some WriterError.EmptyTableData)) ∧
      (¬(w.header_list.isEmpty = true ∧ chunks.isEmpty = true) →
        ∀ e, verify_header w = .error e →
          write_table_iter resolve rf cf w chunks = (w, [], some e))) := by
  refine ⟨fun hsup => by simp [write_table_iter, hsup],
    fun hsup e hn => by simp [write_table_iter, hsup, hn],
    fun hsup hn e hs => by simp [write_table_iter, hsup, hn, hs],
    fun hsup hn hs => ⟨⟨fun h => ?_, fun hb => ?_⟩,
      fun h1 h2 => by simp [write_table_iter, hsup, hn, hs, h1, h2],
      fun hne e hh => ?_⟩⟩
  · by_cases hemp : (w.header_list.isEmpty && chunks.isEmpty) = true
    · simpa using hemp
    · exfalso
      rcases hh : verify_header w with eh | uh
      · have heq : write_table_iter resolve rf cf w chunks = (w, [], some eh) := by
          simp only [write_table_iter, hsup, hn, hs, hh]
          simp [hemp]
        rw [heq] at h
        have := verify_header_err w eh hh
        simp [this] at h
      · have heq : write_table_iter resolve rf cf w chunks
            = writeTableIterScoped resolve rf cf w chunks := by
          simp only [write_table_iter, hsup, hn, hs, hh]
          simp [hemp]
        have hsc : (writeTableIterScoped resolve rf cf w chunks).2.2
            = (writeTableIterLoop resolve rf cf
                { w with is_write_closing_row := false, iter_count := some 1 } chunks).2.2 := rfl
        rw [heq, hsc] at h
        rcases loop_err_cases resolve rf cf chunks
            { w with is_write_closing_row := false, iter_count := some 1 } with h0 | h0 | h0 <;>
          simp [h0] at h
  · obtain ⟨h1, h2⟩ := hb
    simp [write_table_iter, hsup, hn, hs, h1, h2]
  · have hemp : (w.header_list.isEmpty && chunks.isEmpty) = false := by
      rcases hA : w.header_list.isEmpty <;> rcases hB : chunks.isEmpty <;> simp_all
    simp only [write_table_iter, hsup, hn, hs, hh]
    simp [hemp]

/-- C7 witness: with both the header and the chunk source empty but the
classified matrix still populated, the iterative write raises
`EmptyTableDataError` before touching any chunk - the classified matrix
is not consulted (the single-shot check, by contrast, would pass here,
see the C3 theorem). -/
theorem c7_witness :
    iterEmptyWriter.support_split_write = true ∧
    verify_table_name iterEmptyWriter = .ok () ∧
    verify_stream iterEmptyWriter = .ok () ∧
    iterEmptyWriter.table_value_dp_matrix ≠ [] ∧
    write_table_iter resolve0 noFail noFail iterEmptyWriter []
      = (iterEmptyWriter, [], some WriterError.EmptyTableData) :=
  ⟨rfl, rfl, rfl, by decide,
   ((c7_iter_precondition_order resolve0 noFail noFail iterEmptyWriter []).2.2.2
     rfl rfl rfl).2.1 rfl rfl⟩

theorem widthsGrow_refl (xs : List Nat) : widthsGrow xs xs := by
  refine ⟨le_refl _, fun k a b ha hb => ?_⟩
  rw [ha] at hb
  exact le_of_eq (Option.some.inj hb)

theorem widthsGrow_trans {xs ys zs : List Nat}
    (h1 : widthsGrow xs ys) (h2 : widthsGrow ys zs) : widthsGrow xs zs := by
  refine ⟨le_trans h1.1 h2.1, fun k a b ha hb => ?_⟩
  have hk : k < ys.length := lt_of_lt_of_le (List.getElem?_eq_some.mp ha).1 h1.1
  have hc : ys[k]? = some (ys[k]) := List.getElem?_eq_getElem hk
  exact le_trans (h1.2 k a _ ha hc) (h2.2 k _ b hc hb)

/-- Merging a new classified matrix into the accumulated column
descriptors extends them: no column disappears and no width shrinks. -/
theorem to_column_dp_list_grows (resolve : ResolveFn) (hints : Option (List Typecode))
    (headerWidths : List Nat) (matrix : List (List ValueDp)) (prev : List ColumnDp) :
    widthsGrow (prev.map fun c => c.ascii_char_width)
      ((to_column_dp_list resolve hints headerWidths matrix prev).map
        fun c => c.ascii_char_width) := by
  simp only [to_column_dp_list]
  constructor
  · simp only [List.length_map, List.length_range]
    omega
  · intro k a b ha hb
    rw [List.getElem?_map] at ha
    rcases hp : prev[k]? with _ | dp
    · rw [hp] at ha
      simp at ha
    · rw [hp] at ha
      have hk : k < prev.length := (List.getElem?_eq_some.mp hp).1
      have hkn : k < max (max prev.length (maxRowLen matrix)) headerWidths.length := by omega
      rw [List.getElem?_map, List.getElem?_map, List.getElem?_range hkn] at hb
      simp [hp] at hb
      have ha2 : dp.ascii_char_width = a := Option.some.inj ha
      omega

/-- Stage 1 folds the new matrix into the accumulated descriptors, so the
column widths grow. -/
theorem columnWidths_table_dp (resolve : ResolveFn) (w : Writer) :
    widthsGrow (columnWidths w) (columnWidths (preprocess_table_dp resolve w)) := by
  unfold preprocess_table_dp columnWidths
  by_cases h : w.is_complete_table_dp_preprocess = true
  · simp [h]
    exact widthsGrow_refl _
  · by_cases hd : (w.header_list.isEmpty && w.use_default_header) = true <;>
      simp [h, hd] <;> exact to_column_dp_list_grows _ _ _ _ _

/-- Stage 2 at most extends widths, so the column widths grow. -/
theorem columnWidths_table_property (w : Writer) :
    widthsGrow (columnWidths w) (columnWidths (preprocess_table_property w)) := by
  by_cases h : w.is_complete_table_property_preprocess = true
  · have heq : preprocess_table_property w = w := by simp [preprocess_table_property, h]
    rw [heq]
    exact widthsGrow_refl _
  · by_cases hc : w.iter_count = some 1
    · have hcols : (preprocess_table_property w).column_dp_list
          = w.column_dp_list.map fun dp => extend_width dp ((dp.ascii_char_width + 3) / 4) := by
        simp [preprocess_table_property, h, hc]
      unfold columnWidths
      rw [hcols]
      refine ⟨by simp, fun k a b ha hb => ?_⟩
      rw [List.getElem?_map] at ha
      rw [List.getElem?_map, List.getElem?_map] at hb
      rcases hp : w.column_dp_list[k]? with _ | dp
      · rw [hp] at ha
        simp at ha
      · rw [hp] at ha
        rw [hp] at hb
        simp [extend_width] at hb
        have ha2 : dp.ascii_char_width = a := Option.some.inj ha
        omega
    · have hcols : (preprocess_table_property w).column_dp_list = w.column_dp_list := by
        simp [preprocess_table_property, h, hc]
      unfold columnWidths
      rw [hcols]
      exact widthsGrow_refl _

/-- Stage 3 does not touch the column descriptors. -/
theorem columnWidths_header (w : Writer) :
    columnWidths (preprocess_header w) = columnWidths w := by
  unfold preprocess_header columnWidths
  by_cases h : w.is_complete_header_preprocess = true <;> simp [h]

/-- Stage 4 does not touch the column descriptors. -/
theorem columnWidths_value_matrix (w : Writer) :
    columnWidths (preprocess_value_matrix w) = columnWidths w := by
  unfold preprocess_value_matrix columnWidths
  by_cases h : w.is_complete_value_matrix_preprocess = true <;> simp [h]

/-- Running the whole pipeline never shrinks a column width. -/
theorem preprocess_grows (resolve : ResolveFn) (w : Writer) :
    widthsGrow (columnWidths w) (columnWidths (preprocess resolve w)) := by
  unfold preprocess
  rw [columnWidths_value_matrix, columnWidths_header]
  exact widthsGrow_trans (columnWidths_table_dp resolve w) (columnWidths_table_property _)

/-- Replacing the matrix, toggling the closing flag and clearing the
status flags leave the accumulated column descriptors untouched. -/
theorem columnWidths_iterChunkSet (b : Bool) (c : List (List ValueDp)) (w : Writer) :
    columnWidths (iterChunkSet b c w) = columnWidths w := by
  cases b <;> rfl

/-- One chunk step - set the matrix, clear the status flags, rerun the
pipeline - never shrinks the accumulated column widths. -/
theorem iter_step_grow (resolve : ResolveFn) (b : Bool) (c : List (List ValueDp))
    (w : Writer) :
    widthsGrow (columnWidths w) (columnWidths (preprocess resolve (iterChunkSet b c w))) := by
  have h := preprocess_grows resolve (iterChunkSet b c w)
  rw [columnWidths_iterChunkSet] at h
  exact h

/-- Along the trace of one iterative-write loop the recorded column-width
lists grow from the entry state and from each record to the next. -/
theorem loop_trace_grow (resolve : ResolveFn) (rf cf : Nat → Bool) :
    ∀ (chunks : List (List (List ValueDp))) (w : Writer),
      List.Chain' (fun r s => widthsGrow r.widths s.widths)
        (writeTableIterLoop resolve rf cf w chunks).2.1 ∧
      ∀ r0 rest0, (writeTableIterLoop resolve rf cf w chunks).2.1 = r0 :: rest0 →
        widthsGrow (columnWidths w) r0.widths := by
  intro chunks
  induction chunks with
  | nil =>
    intro w
    exact ⟨List.chain'_nil, fun r0 rest0 h => by simp [writeTableIterLoop] at h⟩
  | cons c rest ih =>
    intro w
    simp only [writeTableIterLoop]
    generalize hcnt : w.iter_count.getD 0 = cnt
    generalize hF : (decide (0 < w.iteration_length)
      && decide (w.iteration_length ≤ (cnt : Int))) = F
    have hstep := iter_step_grow resolve F c w
    generalize hW : preprocess resolve (iterChunkSet F c w) = W at hstep
    by_cases h1 : rf cnt = true
    · simp only [h1, if_true]
      exact ⟨List.chain'_nil, fun r0 rest0 h => by simp at h⟩
    · simp only [h1, Bool.false_eq_true, if_false]
      by_cases h2 : cf cnt = true
      · simp only [h2, if_true]
        exact ⟨List.chain'_singleton _, fun r0 rest0 h => by
          simp only [List.cons.injEq] at h
          rw [← h.1]
          exact hstep⟩
      · simp only [h2, Bool.false_eq_true, if_false]
        by_cases h3 : F = true
        · simp only [h3, if_true]
          exact ⟨List.chain'_singleton _, fun r0 rest0 h => by
            simp only [List.cons.injEq] at h
            rw [← h.1]
            exact hstep⟩
        · simp only [h3, Bool.false_eq_true, if_false]
          have haux : ∀ (S : Writer) (y : IterStepRecord),
              (writeTableIterLoop resolve rf cf S rest).2.1.head? = some y →
              widthsGrow (columnWidths S) y.widths := by
            intro S y hy
            rcases htl : (writeTableIterLoop resolve rf cf S rest).2.1 with _ | ⟨r1, tl⟩
            · rw [htl] at hy
              simp at hy
            · rw [htl] at hy
              simp only [List.head?_cons, Option.some.injEq] at hy
              rw [← hy]
              exact (ih S).2 r1 tl htl
          constructor
          · refine List.chain'_cons'.mpr ⟨fun y hy => ?_, (ih _).1⟩
            rw [Option.mem_def] at hy
            exact haux
              { W with
                  is_write_header := false
                  is_write_opening_row := false
                  iter_count := some (cnt + 1) } y hy
          · intro r0 rest0 h
            simp only [List.cons.injEq] at h
            rw [← h.1]
            exact hstep

/-- The width lists recorded along any full iterative write form a
growing chain. -/
theorem iter_trace_grow (resolve : ResolveFn) (rf cf : Nat → Bool)
    (w : Writer) (chunks : List (List (List ValueDp))) :
    List.Chain' (fun r s => widthsGrow r.widths s.widths)
      (write_table_iter resolve rf cf w chunks).2.1 := by
  cases hpc : iter_precheck w chunks with
  | true =>
    rw [(write_table_iter_split resolve rf cf w chunks).1 hpc]
    have heq : (writeTableIterScoped resolve rf cf w chunks).2.1
        = (writeTableIterLoop resolve rf cf
            { w with is_write_closing_row := false, iter_count := some 1 } chunks).2.1 := rfl
    rw [heq]
    exact (loop_trace_grow resolve rf cf chunks _).1
  | false =>
    obtain ⟨e, he⟩ := (write_table_iter_split resolve rf cf w chunks).2 hpc
    rw [he]
    exact List.chain'_nil

/-- C5 counterexample: the per-iteration-step clear
(`__clear_preprocess_status`, called at line 410) clears ALL FOUR
stage-completion flags - including stage 2's column-property flag -
not only those of stages 1, 3 and 4; the accumulated column descriptors
themselves do persist. -/
theorem c5_stage2_flag_also_cleared :
    cachedWriter.is_complete_table_property_preprocess = true ∧
    (clear_preprocess_status cachedWriter).is_complete_table_property_preprocess = false ∧
    (clear_preprocess_status cachedWriter).column_dp_list = cachedWriter.column_dp_list :=
  ⟨rfl, rfl, rfl⟩

/-- C5 amended: at each iteration step all four stage-completion flags are
cleared but the accumulated column descriptors persist and are extended
rather than replaced, so for every column K and every pair of successive
chunks of one iterative write, column K's resolved width at the later
chunk is at least its width at the earlier chunk. -/
theorem c5_iter_widths_monotone (resolve : ResolveFn) (rf cf : Nat → Bool)
    (w : Writer) (chunks : List (List (List ValueDp)))
    (i k a b : Nat) (ri rj : IterStepRecord)
    (hi : (write_table_iter resolve rf cf w chunks).2.1[i]? = some ri)
    (hj : (write_table_iter resolve rf cf w chunks).2.1[i + 1]? = some rj)
    (ha : ri.widths[k]? = some a) (hb : rj.widths[k]? = some b) : a ≤ b := by
  have hchain := iter_trace_grow resolve rf cf w chunks
  generalize htr : (write_table_iter resolve rf cf w chunks).2.1 = tr at hi hj hchain
  rw [List.chain'_iff_get] at hchain
  obtain ⟨hjl, hjeq⟩ := List.getElem?_eq_some.mp hj
  obtain ⟨hil, hieq⟩ := List.getElem?_eq_some.mp hi
  have h := hchain i (by omega)
  rw [List.get_eq_getElem, List.get_eq_getElem] at h
  rw [hieq, hjeq] at h
  exact h.2 k a b ha hb

/-- C5 witness: in the 3-chunk sample run, column 0's recorded width stays
at 4 from chunk 1 to chunk 2, and the monotonicity theorem applies. -/
theorem c5_witness :
    (write_table_iter resolve0 noFail noFail iterDemoWriter chunksThree).2.1[0]?
        = some { idx := 1, write_header := true, write_opening_row := true,
                 write_closing_row := false, widths := [4], sep_after := true } ∧
    (write_table_iter resolve0 noFail noFail iterDemoWriter chunksThree).2.1[1]?
        = some { idx := 2, write_header := false, write_opening_row := false,
                 write_closing_row := false, widths := [4], sep_after := true } ∧
    (4 : Nat) ≤ 4 :=
  ⟨by decide, by decide,
   c5_iter_widths_monotone resolve0 noFail noFail iterDemoWriter chunksThree 0 0 4 4
     { idx := 1, write_header := true, write_opening_row := true,
       write_closing_row := false, widths := [4], sep_after := true }
     { idx := 2, write_header := false, write_opening_row := false,
       write_closing_row := false, widths := [4], sep_after := true }
     (by decide) (by decide) (by decide) (by decide)⟩

end PyTableWriter
